import Mathlib

/-!
Verification development for the code-usage-analyzer repository
(src/code_analyzer.py).  The Python data structures and the analysis
passes are shallowly embedded as executable Lean definitions, and the
behavioural claims about the analyzer are settled as theorems below.

Embedding conventions:
* Python namedtuples become structures with the same field names.
* The Python ast node subset that the visitors inspect becomes the
  inductive types PyExpr / PyStmt.
* The two ast.NodeVisitor subclasses become state-passing recursive
  functions over that syntax; generic_visit corresponds to recursing
  into the child nodes in field order.
* Python sets (class_uses, callers) are modeled as lists; only
  membership (and, for callers, the deduplicated element collection)
  is ever observed by the analyzer, so a duplicate-free ordered list
  carries the same information.
* Python truthiness tests on strings and optional strings (if
  func_name, if func.class_name) are modeled by pyTruthy below.
-/

/-- Python str truthiness: a string is truthy iff it is nonempty. -/
def pyTruthyS (s : String) : Bool := s ≠ ""

/-- Python truthiness of an Optional[str]: None and the empty string are falsy. -/
def pyTruthyOpt : Option String → Bool
  | none => false
  | some s => s ≠ ""

/-- Python str.startswith on the character-list view of the strings. -/
def pyStartsWith (s pre : String) : Bool := List.isPrefixOf pre.data s.data

/-- Python str.endswith on the character-list view of the strings. -/
def pyEndsWith (s suf : String) : Bool := List.isSuffixOf suf.data s.data

/-- Python str.isupper: at least one cased character and no lowercase character. -/
def pyIsUpper (s : String) : Bool :=
  s.data.any (fun c => c.isLower || c.isUpper) && s.data.all (fun c => !c.isLower)

/-- Dunder naming test used by the dead-element classifier:
name.startswith with a double underscore and name.endswith with a double underscore. -/
def isDunder (s : String) : Bool := pyStartsWith s "__" && pyEndsWith s "__"

/-- namedtuple FunctionInfo of code_analyzer.py. -/
structure FunctionInfo where
  name : String
  file : String
  class_name : Option String
  lineno : Nat
deriving DecidableEq, Repr

/-- namedtuple CallInfo of code_analyzer.py. -/
structure CallInfo where
  name : String
  file : String
  class_name : Option String
  caller_file : String
  caller_class : Option String
  caller_function : Option String
deriving DecidableEq, Repr

/-- namedtuple VariableInfo of code_analyzer.py. -/
structure VariableInfo where
  name : String
  file : String
  class_name : Option String
  function_name : Option String
  lineno : Nat
  is_constant : Bool
deriving DecidableEq, Repr

/-- namedtuple ClassInfo of code_analyzer.py. -/
structure ClassInfo where
  name : String
  file : String
  lineno : Nat
deriving DecidableEq, Repr

/-- Entry of CallVisitor.variable_uses: the tuple
(node.id, filename, current_class, current_function) appended by visit_Name. -/
structure VarUse where
  name : String
  file : String
  class_name : Option String
  function_name : Option String
deriving DecidableEq, Repr

/-- Expression context of a Python ast.Name node (ast.Load, ast.Store, ast.Del). -/
inductive ExprCtx where
  | load
  | store
  | del
deriving DecidableEq, Repr

/-- The subset of Python ast expression nodes that the visitors inspect.
Child nodes are listed in the order of the ast field order, which is the
order generic_visit traverses them. -/
inductive PyExpr where
  | nameE (id : String) (ctx : ExprCtx)
  | attributeE (value : PyExpr) (attr : String) (ctx : ExprCtx)
  | callE (func : PyExpr) (args : List PyExpr)
  | constantE
  | tupleE (elts : List PyExpr) (ctx : ExprCtx)


/-- The subset of Python ast statement nodes that the visitors inspect.
importS and importFromS carry the alias names of the import
(alias.name for each entry of node.names). -/
inductive PyStmt where
  | classDef (name : String) (lineno : Nat) (body : List PyStmt)
  | functionDef (name : String) (lineno : Nat) (body : List PyStmt)
  | assign (lineno : Nat) (targets : List PyExpr) (value : PyExpr)
  | annAssign (lineno : Nat) (target : PyExpr) ( annotation : PyExpr) (value : Option PyExpr)
  | importS (names : List String)
  | importFromS (names : List String)
  | exprS (value : PyExpr)
  | returnS (value : Option PyExpr)
  | passS

/-- Mutable state of a FunctionVisitor instance. -/
structure FVState where
  filename : String
  current_class : Option String
  current_function : Option String
  functions : List FunctionInfo
  classes : List ClassInfo
  variableDefs : List VariableInfo
deriving DecidableEq, Repr

/-- FunctionVisitor.__init__. -/
def initFV (filename : String) : FVState :=
  ⟨filename, none, none, [], [], []⟩

/-- The target loop of FunctionVisitor.visit_Assign: for every target that is an
ast.Name, append a VariableInfo with is_constant given by target.id.isupper(). -/
def fvAssignTargets (lineno : Nat) : FVState → List PyExpr → FVState
  | st, [] => st
  | st, PyExpr.nameE id _ :: rest =>
      fvAssignTargets lineno
        { st with variableDefs := st.variableDefs ++
            [⟨id, st.filename, st.current_class, st.current_function, lineno, pyIsUpper id⟩] }
        rest
  | st, _ :: rest => fvAssignTargets lineno st rest

mutual

/-- FunctionVisitor dispatch on one statement node.  visit_ClassDef records a
ClassInfo then recurses with current_class replaced and restored; visit_FunctionDef
records a FunctionInfo then recurses with current_function replaced and restored;
visit_Assign and visit_AnnAssign record variable definitions for simple-name
targets.  Statements with no handler only recurse into child statements
(generic_visit finds no statement children in the remaining forms). -/
def fvStmt (st : FVState) : PyStmt → FVState
  | PyStmt.classDef name lineno body =>
      let st1 := { st with classes := st.classes ++ [(⟨name, st.filename, lineno⟩ : ClassInfo)] }
      let st2 := fvStmts { st1 with current_class := some name } body
      { st2 with current_class := st.current_class }
  | PyStmt.functionDef name lineno body =>
      let st1 := { st with functions :=
        st.functions ++ [(⟨name, st.filename, st.current_class, lineno⟩ : FunctionInfo)] }
      let st2 := fvStmts { st1 with current_function := some name } body
      { st2 with current_function := st.current_function }
  | PyStmt.assign lineno targets _ => fvAssignTargets lineno st targets
  | PyStmt.annAssign lineno target _ _ =>
      match target with
      | PyExpr.nameE id _ =>
          { st with variableDefs := st.variableDefs ++
              [⟨id, st.filename, st.current_class, st.current_function, lineno, pyIsUpper id⟩] }
      | _ => st
  | PyStmt.importS _ => st
  | PyStmt.importFromS _ => st
  | PyStmt.exprS _ => st
  | PyStmt.returnS _ => st
  | PyStmt.passS => st

/-- FunctionVisitor traversal of a statement list (a node body), left to right. -/
def fvStmts (st : FVState) : List PyStmt → FVState
  | [] => st
  | s :: rest => fvStmts (fvStmt st s) rest

end

/-- Mutable state of a CallVisitor instance.  class_uses is a Python set;
it is modeled as the list of added elements and only queried by membership. -/
structure CVState where
  filename : String
  current_class : Option String
  current_function : Option String
  calls : List CallInfo
  variable_uses : List VarUse
  class_uses : List String
deriving DecidableEq, Repr

/-- CallVisitor.__init__. -/
def initCV (filename : String) : CVState :=
  ⟨filename, none, none, [], [], []⟩

/-- The classification step of CallVisitor.visit_Call, before generic_visit:
an Attribute callee over a Name receiver records a call with the class hint
given by the receiver (current_class when the receiver is the word self,
the receiver token otherwise, in which case the receiver is also added to
class_uses); a bare Name callee records a call with no class hint; any other
callee shape records nothing.  The record is appended only when func_name
is truthy, mirroring the if func_name guard. -/
def cvCallRecord (st : CVState) : PyExpr → CVState
  | PyExpr.callE func _ =>
      match func with
      | PyExpr.attributeE (PyExpr.nameE recvId _) attr _ =>
          let stc :=
            if recvId = "self" then st
            else { st with class_uses := st.class_uses ++ [recvId] }
          let hint := if recvId = "self" then st.current_class else some recvId
          if pyTruthyS attr then
            { stc with calls := stc.calls ++
                [⟨attr, st.filename, hint, st.filename, st.current_class, st.current_function⟩] }
          else stc
      | PyExpr.nameE id _ =>
          if pyTruthyS id then
            { st with calls := st.calls ++
                [⟨id, st.filename, none, st.filename, st.current_class, st.current_function⟩] }
          else st
      | _ => st
  | _ => st

mutual

/-- CallVisitor dispatch on one expression node.  visit_Name records a
variable use on Load context; visit_Call performs the classification step
then generic_visit over func and args; Attribute and Tuple nodes have no
handler and only recurse into children. -/
def cvExpr (st : CVState) : PyExpr → CVState
  | PyExpr.nameE id ctx =>
      if ctx = ExprCtx.load then
        { st with variable_uses := st.variable_uses ++
            [⟨id, st.filename, st.current_class, st.current_function⟩] }
      else st
  | PyExpr.attributeE value _ _ => cvExpr st value
  | PyExpr.callE func args =>
      cvExprs (cvCallRecord st (PyExpr.callE func args)) (func :: args)
  | PyExpr.constantE => st
  | PyExpr.tupleE elts _ => cvExprs st elts

/-- CallVisitor traversal of an expression list, left to right. -/
def cvExprs (st : CVState) : List PyExpr → CVState
  | [] => st
  | e :: rest => cvExprs (cvExpr st e) rest

/-- CallVisitor dispatch on one statement node.  visit_ClassDef and
visit_FunctionDef swap and restore the scope fields around the body
traversal; visit_Import and visit_ImportFrom add every alias name to
class_uses; the remaining statements have no handler and generic_visit
recurses into their child expressions in ast field order. -/
def cvStmt (st : CVState) : PyStmt → CVState
  | PyStmt.classDef name _ body =>
      let st2 := cvStmts { st with current_class := some name } body
      { st2 with current_class := st.current_class }
  | PyStmt.functionDef name _ body =>
      let st2 := cvStmts { st with current_function := some name } body
      { st2 with current_function := st.current_function }
  | PyStmt.assign _ targets value => cvExpr (cvExprs st targets) value
  | PyStmt.annAssign _ target annotation value =>
      let st1 := cvExpr (cvExpr st target) annotation
      match value with
      | some v => cvExpr st1 v
      | none => st1
  | PyStmt.importS names => { st with class_uses := st.class_uses ++ names }
  | PyStmt.importFromS names => { st with class_uses := st.class_uses ++ names }
  | PyStmt.exprS v => cvExpr st v
  | PyStmt.returnS (some v) => cvExpr st v
  | PyStmt.returnS none => st
  | PyStmt.passS => st

/-- CallVisitor traversal of a statement list, left to right. -/
def cvStmts (st : CVState) : List PyStmt → CVState
  | [] => st
  | s :: rest => cvStmts (cvStmt st s) rest

end

/-- Accumulated state of a CodeAnalyzer instance: the record lists filled by
analyze and queried by the classifier methods. -/
structure AnalyzerState where
  functions : List FunctionInfo
  calls : List CallInfo
  variableDefs : List VariableInfo
  variable_uses : List VarUse
  classes : List ClassInfo
  class_uses : List String
deriving DecidableEq, Repr

/-- CodeAnalyzer.__init__: all record collections start empty. -/
def initState : AnalyzerState := ⟨[], [], [], [], [], []⟩

/-- A regex match produced by re.finditer in _analyze_text_based:
group(1) of the match (None when the matched alternative has no group 1)
and the offset of the match start in the content. -/
structure RegexMatch where
  group1 : Option String
  startPos : Nat
deriving DecidableEq, Repr

/-- Line number computation of _analyze_text_based:
content[:match.start()].count of the newline character, plus one. -/
def linenoAt (content : String) (pos : Nat) : Nat :=
  ((content.data.take pos).filter (fun c => c = '\n')).length + 1

/-- The function-definition loop of _analyze_text_based: for every match whose
group(1) is truthy, append a FunctionInfo with class_name None (the comment in
the source notes that the precise class is not detectable from text).  The
Python loop appends exactly these records in match order. -/
def textBasedFunctions (filepath content : String) (ms : List RegexMatch) :
    List FunctionInfo :=
  ms.filterMap (fun m =>
    match m.group1 with
    | some n => if pyTruthyS n then some ⟨n, filepath, none, linenoAt content m.startPos⟩ else none
    | none => none)

/-- The call loop of _analyze_text_based: for every match whose group(1) is
truthy, append a CallInfo with class_name, caller_class and caller_function
all None. -/
def textBasedCalls (filepath : String) (ms : List RegexMatch) : List CallInfo :=
  ms.filterMap (fun m =>
    match m.group1 with
    | some n => if pyTruthyS n then some ⟨n, filepath, none, filepath, none, none⟩ else none
    | none => none)

/-- CodeAnalyzer._analyze_text_based: extend functions and calls with the
records built from the two regex scans. -/
def analyzeTextBased (st : AnalyzerState) (filepath content : String)
    (funcMatches callMatches : List RegexMatch) : AnalyzerState :=
  { st with
    functions := st.functions ++ textBasedFunctions filepath content funcMatches
    calls := st.calls ++ textBasedCalls filepath callMatches }

/-- One source unit as handed to _analyze_file.  The Python parser and the
regex engine are external to the embedding, so a Python unit carries the parse
result (none models ast.parse raising SyntaxError) and a text-based unit
carries the finditer results of the two patterns.  unreadableUnit models an
OSError or UnicodeDecodeError from opening or decoding the file, and
unsupportedUnit a file whose extension has no extractor. -/
inductive UnitInput where
  | pythonUnit (filepath : String) (parsed : Option (List PyStmt))
  | textUnit (filepath content : String) (funcMatches callMatches : List RegexMatch)
  | unsupportedUnit (filepath : String)
  | unreadableUnit (filepath : String)

/-- CodeAnalyzer._analyze_python_file: on a successful parse, run the
FunctionVisitor and the CallVisitor over the tree and extend every analyzer
collection; on a parse failure, raise (modeled as Except.error) without
touching the state. -/
def analyzePythonFile (st : AnalyzerState) (filepath : String)
    (parsed : Option (List PyStmt)) : Except String AnalyzerState :=
  match parsed with
  | none => Except.error "SyntaxError"
  | some tree =>
      let fv := fvStmts (initFV filepath) tree
      let cv := cvStmts (initCV filepath) tree
      Except.ok { st with
        functions := st.functions ++ fv.functions
        classes := st.classes ++ fv.classes
        variableDefs := st.variableDefs ++ fv.variableDefs
        calls := st.calls ++ cv.calls
        variable_uses := st.variable_uses ++ cv.variable_uses
        class_uses := st.class_uses ++ cv.class_uses }

/-- The body of CodeAnalyzer._analyze_file before its except clause: dispatch
on the unit kind; python and unreadable units can fail. -/
def analyzeUnitE (st : AnalyzerState) : UnitInput → Except String AnalyzerState
  | UnitInput.pythonUnit fp parsed => analyzePythonFile st fp parsed
  | UnitInput.textUnit fp content fm cm =>
      Except.ok (analyzeTextBased st fp content fm cm)
  | UnitInput.unsupportedUnit _ => Except.ok st
  | UnitInput.unreadableUnit _ => Except.error "OSError"

/-- CodeAnalyzer._analyze_file: any exception from analyzing the unit is
caught, a message is printed, and the state is left as it was. -/
def analyzeFile (st : AnalyzerState) (u : UnitInput) : AnalyzerState :=
  match analyzeUnitE st u with
  | Except.ok st2 => st2
  | Except.error _ => st

/-- The per-file loop of CodeAnalyzer.analyze: units are processed one at a
time, each through _analyze_file. -/
def analyzeAll (st : AnalyzerState) (units : List UnitInput) : AnalyzerState :=
  units.foldl analyzeFile st

/-- The function identity triple (file, name, class hint) used as the
call-count dictionary key. -/
abbrev FuncId := String × String × Option String

/-- Identity triple of a call record. -/
def funcIdOfCall (c : CallInfo) : FuncId := (c.file, c.name, c.class_name)

/-- Identity triple of a function definition. -/
def funcIdOf (f : FunctionInfo) : FuncId := (f.file, f.name, f.class_name)

/-- CodeAnalyzer.get_call_count followed by the .get(func_id, 0) lookup:
the number of call records whose identity triple equals the key. -/
def get_call_count (calls : List CallInfo) (fid : FuncId) : Nat :=
  (calls.filter (fun c => funcIdOfCall c = fid)).length

/-- One element of the callers set of find_private_candidates:
the tuple (call.caller_file, call.caller_class, call.caller_function). -/
structure Caller where
  file : String
  class_name : Option String
  function_name : Option String
deriving DecidableEq, Repr

/-- The callers set built inside find_private_candidates, as the deduplicated
list of caller triples of the calls matching the identity. -/
def callersOf (calls : List CallInfo) (fid : FuncId) : List Caller :=
  ((calls.filter (fun c => funcIdOfCall c = fid)).map
    (fun c => ⟨c.caller_file, c.caller_class, c.caller_function⟩)).dedup

/-- One finding dict of find_private_candidates, with keys file, class,
method, line, callers. -/
structure Candidate where
  file : String
  class_name : Option String
  method : String
  line : Nat
  callers : List Caller
deriving DecidableEq, Repr

/-- The per-definition body of the find_private_candidates loop: skip names
that start with an underscore, require exactly one call whose every caller
file equals the defining file, and require a truthy class_name. -/
def candidateFor (calls : List CallInfo) (func : FunctionInfo) : Option Candidate :=
  if pyStartsWith func.name "_" then none
  else
    let fid := funcIdOf func
    let cnt := get_call_count calls fid
    let callers := callersOf calls fid
    if cnt = 1 ∧ callers.all (fun c => c.file = func.file) then
      if pyTruthyOpt func.class_name then
        some ⟨func.file, func.class_name, func.name, func.lineno, callers⟩
      else none
    else none

/-- CodeAnalyzer.find_private_candidates. -/
def find_private_candidates (st : AnalyzerState) : List Candidate :=
  st.functions.filterMap (candidateFor st.calls)

/-- One finding dict of find_unused_functions (type function). -/
structure UnusedFunctionEntry where
  file : String
  class_name : Option String
  name : String
  line : Nat
deriving DecidableEq, Repr

/-- The per-definition body of the find_unused_functions loop, with the
exclusion tests in source order: test functions and the two fixtures, the
main entry point, dunder methods; then report when the call count is zero. -/
def unusedFunctionFor (calls : List CallInfo) (func : FunctionInfo) :
    Option UnusedFunctionEntry :=
  if pyStartsWith func.name "test_" || func.name = "setUp" || func.name = "tearDown" then none
  else if func.name = "main" then none
  else if pyStartsWith func.name "__" && pyEndsWith func.name "__" then none
  else if get_call_count calls (funcIdOf func) = 0 then
    some ⟨func.file, func.class_name, func.name, func.lineno⟩
  else none

/-- CodeAnalyzer.find_unused_functions. -/
def find_unused_functions (st : AnalyzerState) : List UnusedFunctionEntry :=
  st.functions.filterMap (unusedFunctionFor st.calls)

/-- One finding dict of find_unused_classes (type class). -/
structure UnusedClassEntry where
  file : String
  name : String
  line : Nat
deriving DecidableEq, Repr

/-- The per-class body of the find_unused_classes loop: exclude abstract and
interface naming, exclude test naming, then report when the name is not in
class_uses. -/
def unusedClassFor (class_uses : List String) (cls : ClassInfo) :
    Option UnusedClassEntry :=
  if pyStartsWith cls.name "Abstract" || pyEndsWith cls.name "Interface" then none
  else if pyStartsWith cls.name "Test" || pyEndsWith cls.name "Test" then none
  else if cls.name ∈ class_uses then none
  else some ⟨cls.file, cls.name, cls.lineno⟩

/-- CodeAnalyzer.find_unused_classes. -/
def find_unused_classes (st : AnalyzerState) : List UnusedClassEntry :=
  st.classes.filterMap (unusedClassFor st.class_uses)

/-- One finding dict of find_unused_variables (type variable). -/
structure UnusedVariableEntry where
  file : String
  class_name : Option String
  name : String
  is_constant : Bool
  line : Nat
deriving DecidableEq, Repr

/-- The usage loop of find_unused_variables: a variable counts as used when
some recorded name use carries exactly its name and its file. -/
def isVariableUsed (uses : List VarUse) (var : VariableInfo) : Bool :=
  uses.any (fun u => var.name = u.name && u.file = var.file)

/-- The per-variable body of the find_unused_variables loop: only module- or
class-level variables (function_name is None), excluding dunder names, and
reported when no matching use exists. -/
def unusedVariableFor (uses : List VarUse) (var : VariableInfo) :
    Option UnusedVariableEntry :=
  if var.function_name ≠ none then none
  else if pyStartsWith var.name "__" && pyEndsWith var.name "__" then none
  else if isVariableUsed uses var then none
  else some ⟨var.file, var.class_name, var.name, var.is_constant, var.lineno⟩

/-- CodeAnalyzer.find_unused_variables. -/
def find_unused_variables (st : AnalyzerState) : List UnusedVariableEntry :=
  st.variableDefs.filterMap (unusedVariableFor st.variable_uses)

/-- Usage Index query is_class_used of the spec: the name appears in the
global used-names set, which is realized by the class_uses membership test
inside find_unused_classes. -/
def is_class_used (st : AnalyzerState) (name : String) : Bool :=
  name ∈ st.class_uses

theorem count_filterMap_of_uniq {α β : Type} [DecidableEq α] [DecidableEq β]
    (h : α → Option β) (l : List α) (f : α) (y : β)
    (hy : h f = some y) (huniq : ∀ g, h g = some y → g = f) :
    (l.filterMap h).count y = l.count f := by
  induction l with
  | nil => simp
  | cons a t ih =>
    rw [List.filterMap_cons]
    cases hha : h a with
    | none =>
      have hne : a ≠ f := by
        intro he; rw [he, hy] at hha; cases hha
      rw [List.count_cons]
      simp [hne, ih]
    | some b =>
      by_cases hb : b = y
      · subst hb
        have haf : a = f := huniq a hha
        subst haf
        rw [List.count_cons, List.count_cons]
        simp [ih]
      · have hne : a ≠ f := by
          intro he; rw [he, hy] at hha
          exact hb (Option.some.inj hha).symm
        rw [List.count_cons, List.count_cons]
        simp [hb, hne, ih]

theorem count_filterMap_zero {α β : Type} [DecidableEq β]
    (h : α → Option β) (l : List α) (y : β)
    (hn : ∀ g, h g ≠ some y) :
    (l.filterMap h).count y = 0 := by
  rw [List.count_eq_zero]
  intro hmem
  obtain ⟨a, _, ha⟩ := List.mem_filterMap.mp hmem
  exact hn a ha

theorem fvAssignTargets_scope (lineno : Nat) :
    ∀ (st : FVState) (l : List PyExpr),
    (fvAssignTargets lineno st l).current_class = st.current_class ∧
    (fvAssignTargets lineno st l).current_function = st.current_function ∧
    (fvAssignTargets lineno st l).filename = st.filename
  | st, [] => by simp [fvAssignTargets]
  | st, PyExpr.nameE id c :: rest => by
      have ih := fvAssignTargets_scope lineno
        { st with variableDefs := st.variableDefs ++
            [⟨id, st.filename, st.current_class, st.current_function, lineno, pyIsUpper id⟩] } rest
      simpa [fvAssignTargets] using ih
  | st, PyExpr.attributeE v a c :: rest => by
      simpa [fvAssignTargets] using fvAssignTargets_scope lineno st rest
  | st, PyExpr.callE f as :: rest => by
      simpa [fvAssignTargets] using fvAssignTargets_scope lineno st rest
  | st, PyExpr.constantE :: rest => by
      simpa [fvAssignTargets] using fvAssignTargets_scope lineno st rest
  | st, PyExpr.tupleE es c :: rest => by
      simpa [fvAssignTargets] using fvAssignTargets_scope lineno st rest

mutual

theorem fvStmt_scope : ∀ (st : FVState) (s : PyStmt),
    (fvStmt st s).current_class = st.current_class ∧
    (fvStmt st s).current_function = st.current_function ∧
    (fvStmt st s).filename = st.filename
  | st, PyStmt.classDef n ln body => by
      have h := fvStmts_scope
        { st with classes := st.classes ++ [(⟨n, st.filename, ln⟩ : ClassInfo)],
                  current_class := some n } body
      simp [fvStmt]
      exact ⟨h.2.1, h.2.2⟩
  | st, PyStmt.functionDef n ln body => by
      have h := fvStmts_scope
        { st with functions := st.functions ++ [(⟨n, st.filename, st.current_class, ln⟩ : FunctionInfo)],
                  current_function := some n } body
      simp [fvStmt]
      exact ⟨h.1, h.2.2⟩
  | st, PyStmt.assign ln targets v => by
      simpa [fvStmt] using fvAssignTargets_scope ln st targets
  | st, PyStmt.annAssign ln target ann v => by
      cases target <;> simp [fvStmt]
  | st, PyStmt.importS ns => by simp [fvStmt]
  | st, PyStmt.importFromS ns => by simp [fvStmt]
  | st, PyStmt.exprS v => by simp [fvStmt]
  | st, PyStmt.returnS v => by simp [fvStmt]
  | st, PyStmt.passS => by simp [fvStmt]

theorem fvStmts_scope : ∀ (st : FVState) (l : List PyStmt),
    (fvStmts st l).current_class = st.current_class ∧
    (fvStmts st l).current_function = st.current_function ∧
    (fvStmts st l).filename = st.filename
  | st, [] => by simp [fvStmts]
  | st, s :: rest => by
      have h1 := fvStmt_scope st s
      have h2 := fvStmts_scope (fvStmt st s) rest
      simp only [fvStmts]
      exact ⟨h2.1.trans h1.1, h2.2.1.trans h1.2.1, h2.2.2.trans h1.2.2⟩

end

theorem cvCallRecord_inv (st : CVState) (e : PyExpr) :
    (cvCallRecord st e).filename = st.filename ∧
    (cvCallRecord st e).current_class = st.current_class ∧
    (cvCallRecord st e).current_function = st.current_function ∧
    (cvCallRecord st e).variable_uses = st.variable_uses ∧
    st.calls <+: (cvCallRecord st e).calls ∧
    st.class_uses <+: (cvCallRecord st e).class_uses := by
  cases e with
  | callE f args =>
    cases f with
    | nameE id c =>
      by_cases h : pyTruthyS id = true <;>
        simp [cvCallRecord, h, List.prefix_append]
    | attributeE v attr c =>
      cases v with
      | nameE recv c2 =>
        by_cases hr : recv = "self" <;> by_cases ha : pyTruthyS attr = true <;>
          simp [cvCallRecord, hr, ha, List.prefix_append]
      | attributeE w a2 c2 => simp [cvCallRecord]
      | callE f2 as2 => simp [cvCallRecord]
      | constantE => simp [cvCallRecord]
      | tupleE es c2 => simp [cvCallRecord]
    | callE f2 as2 => simp [cvCallRecord]
    | constantE => simp [cvCallRecord]
    | tupleE es c2 => simp [cvCallRecord]
  | nameE id c => simp [cvCallRecord]
  | attributeE v a c => simp [cvCallRecord]
  | constantE => simp [cvCallRecord]
  | tupleE es c => simp [cvCallRecord]

mutual

theorem cvExpr_inv : ∀ (st : CVState) (e : PyExpr),
    (cvExpr st e).filename = st.filename ∧
    (cvExpr st e).current_class = st.current_class ∧
    (cvExpr st e).current_function = st.current_function ∧
    st.calls <+: (cvExpr st e).calls ∧
    st.variable_uses <+: (cvExpr st e).variable_uses ∧
    st.class_uses <+: (cvExpr st e).class_uses
  | st, PyExpr.nameE id c => by
      by_cases h : c = ExprCtx.load <;> simp [cvExpr, h, List.prefix_append]
  | st, PyExpr.attributeE v a c => by
      simpa [cvExpr] using cvExpr_inv st v
  | st, PyExpr.callE f args => by
      have h1 := cvCallRecord_inv st (PyExpr.callE f args)
      have h2 := cvExprs_inv (cvCallRecord st (PyExpr.callE f args)) (f :: args)
      simp only [cvExpr]
      refine ⟨h2.1.trans h1.1, h2.2.1.trans h1.2.1, h2.2.2.1.trans h1.2.2.1, ?_, ?_, ?_⟩
      · exact h1.2.2.2.2.1.trans h2.2.2.2.1
      · exact (h1.2.2.2.1 ▸ h2.2.2.2.2.1 : st.variable_uses <+: _)
      · exact h1.2.2.2.2.2.trans h2.2.2.2.2.2
  | st, PyExpr.constantE => by simp [cvExpr]
  | st, PyExpr.tupleE es c => by
      simpa [cvExpr] using cvExprs_inv st es

theorem cvExprs_inv : ∀ (st : CVState) (l : List PyExpr),
    (cvExprs st l).filename = st.filename ∧
    (cvExprs st l).current_class = st.current_class ∧
    (cvExprs st l).current_function = st.current_function ∧
    st.calls <+: (cvExprs st l).calls ∧
    st.variable_uses <+: (cvExprs st l).variable_uses ∧
    st.class_uses <+: (cvExprs st l).class_uses
  | st, [] => by simp [cvExprs]
  | st, e :: rest => by
      have h1 := cvExpr_inv st e
      have h2 := cvExprs_inv (cvExpr st e) rest
      simp only [cvExprs]
      exact ⟨h2.1.trans h1.1, h2.2.1.trans h1.2.1, h2.2.2.1.trans h1.2.2.1,
        h1.2.2.2.1.trans h2.2.2.2.1, h1.2.2.2.2.1.trans h2.2.2.2.2.1,
        h1.2.2.2.2.2.trans h2.2.2.2.2.2⟩

end

mutual

theorem cvStmt_inv : ∀ (st : CVState) (s : PyStmt),
    (cvStmt st s).filename = st.filename ∧
    (cvStmt st s).current_class = st.current_class ∧
    (cvStmt st s).current_function = st.current_function ∧
    st.calls <+: (cvStmt st s).calls ∧
    st.variable_uses <+: (cvStmt st s).variable_uses ∧
    st.class_uses <+: (cvStmt st s).class_uses
  | st, PyStmt.classDef n ln body => by
      have h := cvStmts_inv { st with current_class := some n } body
      simp only [cvStmt]
      exact ⟨h.1, trivial, h.2.2.1, h.2.2.2.1, h.2.2.2.2.1, h.2.2.2.2.2⟩
  | st, PyStmt.functionDef n ln body => by
      have h := cvStmts_inv { st with current_function := some n } body
      simp only [cvStmt]
      exact ⟨h.1, h.2.1, trivial, h.2.2.2.1, h.2.2.2.2.1, h.2.2.2.2.2⟩
  | st, PyStmt.assign ln targets v => by
      have h1 := cvExprs_inv st targets
      have h2 := cvExpr_inv (cvExprs st targets) v
      simp only [cvStmt]
      exact ⟨h2.1.trans h1.1, h2.2.1.trans h1.2.1, h2.2.2.1.trans h1.2.2.1,
        h1.2.2.2.1.trans h2.2.2.2.1, h1.2.2.2.2.1.trans h2.2.2.2.2.1,
        h1.2.2.2.2.2.trans h2.2.2.2.2.2⟩
  | st, PyStmt.annAssign ln target ann v => by
      have h1 := cvExpr_inv st target
      have h2 := cvExpr_inv (cvExpr st target) ann
      cases v with
      | none =>
          simp only [cvStmt]
          exact ⟨h2.1.trans h1.1, h2.2.1.trans h1.2.1, h2.2.2.1.trans h1.2.2.1,
            h1.2.2.2.1.trans h2.2.2.2.1, h1.2.2.2.2.1.trans h2.2.2.2.2.1,
            h1.2.2.2.2.2.trans h2.2.2.2.2.2⟩
      | some w =>
          have h3 := cvExpr_inv (cvExpr (cvExpr st target) ann) w
          simp only [cvStmt]
          exact ⟨(h3.1.trans h2.1).trans h1.1,
            (h3.2.1.trans h2.2.1).trans h1.2.1,
            (h3.2.2.1.trans h2.2.2.1).trans h1.2.2.1,
            (h1.2.2.2.1.trans h2.2.2.2.1).trans h3.2.2.2.1,
            (h1.2.2.2.2.1.trans h2.2.2.2.2.1).trans h3.2.2.2.2.1,
            (h1.2.2.2.2.2.trans h2.2.2.2.2.2).trans h3.2.2.2.2.2⟩
  | st, PyStmt.importS ns => by simp [cvStmt, List.prefix_append]
  | st, PyStmt.importFromS ns => by simp [cvStmt, List.prefix_append]
  | st, PyStmt.exprS v => by simpa [cvStmt] using cvExpr_inv st v
  | st, PyStmt.returnS (some v) => by simpa [cvStmt] using cvExpr_inv st v
  | st, PyStmt.returnS none => by simp [cvStmt]
  | st, PyStmt.passS => by simp [cvStmt]

theorem cvStmts_inv : ∀ (st : CVState) (l : List PyStmt),
    (cvStmts st l).filename = st.filename ∧
    (cvStmts st l).current_class = st.current_class ∧
    (cvStmts st l).current_function = st.current_function ∧
    st.calls <+: (cvStmts st l).calls ∧
    st.variable_uses <+: (cvStmts st l).variable_uses ∧
    st.class_uses <+: (cvStmts st l).class_uses
  | st, [] => by simp [cvStmts]
  | st, s :: rest => by
      have h1 := cvStmt_inv st s
      have h2 := cvStmts_inv (cvStmt st s) rest
      simp only [cvStmts]
      exact ⟨h2.1.trans h1.1, h2.2.1.trans h1.2.1, h2.2.2.1.trans h1.2.2.1,
        h1.2.2.2.1.trans h2.2.2.2.1, h1.2.2.2.2.1.trans h2.2.2.2.2.1,
        h1.2.2.2.2.2.trans h2.2.2.2.2.2⟩

end

/-- The finding record that find_unused_functions would build for a given
function definition. -/
def c3Entry (f : FunctionInfo) : UnusedFunctionEntry :=
  ⟨f.file, f.class_name, f.name, f.lineno⟩

/-- Transcription of the spec rule for unused functions: call count zero and
the name matches no exclusion pattern (test prefix, the two fixture names,
the entry point name, the dunder pattern). -/
abbrev unusedFunctionQualifies (calls : List CallInfo) (f : FunctionInfo) : Prop :=
  ¬ pyStartsWith f.name "test_" ∧ f.name ≠ "setUp" ∧ f.name ≠ "tearDown" ∧
  f.name ≠ "main" ∧ ¬ (pyStartsWith f.name "__" ∧ pyEndsWith f.name "__") ∧
  get_call_count calls (funcIdOf f) = 0

theorem unusedFunctionFor_eq_some (calls : List CallInfo) (g : FunctionInfo)
    (e : UnusedFunctionEntry) :
    unusedFunctionFor calls g = some e ↔
      unusedFunctionQualifies calls g ∧ e = c3Entry g := by
  simp only [unusedFunctionFor, unusedFunctionQualifies, c3Entry]
  split_ifs with h1 h2 h3 h4 <;>
    simp_all [not_or] <;> aesop

theorem c3Entry_inj {f g : FunctionInfo} (h : c3Entry f = c3Entry g) : f = g := by
  cases f; cases g
  simp only [c3Entry, UnusedFunctionEntry.mk.injEq] at h
  simp [h.1, h.2.1, h.2.2.1, h.2.2.2]

/-- C3: a function definition appears in the unused-function output exactly
once iff its call count is zero and its name avoids every exclusion pattern;
in particular dunder names never appear. -/
theorem C3_unused_function_output (st : AnalyzerState) (f : FunctionInfo) :
    (find_unused_functions st).count (c3Entry f) =
      if unusedFunctionQualifies st.calls f then st.functions.count f else 0 := by
  by_cases hq : unusedFunctionQualifies st.calls f
  · rw [if_pos hq]
    apply count_filterMap_of_uniq _ _ f
    · exact (unusedFunctionFor_eq_some _ f _).mpr ⟨hq, rfl⟩
    · intro g hg
      obtain ⟨hgq, he⟩ := (unusedFunctionFor_eq_some _ g _).mp hg
      exact (c3Entry_inj he).symm
  · rw [if_neg hq]
    apply count_filterMap_zero
    intro g hg
    obtain ⟨hgq, he⟩ := (unusedFunctionFor_eq_some _ g _).mp hg
    exact hq ((c3Entry_inj he) ▸ hgq)

/-- The finding record that find_unused_classes would build for a class. -/
def c7Entry (c : ClassInfo) : UnusedClassEntry := ⟨c.file, c.name, c.lineno⟩

/-- Transcription of the spec rule for unused classes: no abstract naming
prefix or interface suffix, no test naming convention, and the name is absent
from the global used-names set. -/
abbrev unusedClassQualifies (class_uses : List String) (c : ClassInfo) : Prop :=
  ¬ pyStartsWith c.name "Abstract" ∧ ¬ pyEndsWith c.name "Interface" ∧
  ¬ pyStartsWith c.name "Test" ∧ ¬ pyEndsWith c.name "Test" ∧ c.name ∉ class_uses

theorem unusedClassFor_eq_some (class_uses : List String) (g : ClassInfo)
    (e : UnusedClassEntry) :
    unusedClassFor class_uses g = some e ↔
      unusedClassQualifies class_uses g ∧ e = c7Entry g := by
  simp only [unusedClassFor, unusedClassQualifies, c7Entry]
  split_ifs with h1 h2 h3 <;> simp_all [not_or] <;> aesop

theorem c7Entry_inj {f g : ClassInfo} (h : c7Entry f = c7Entry g) : f = g := by
  cases f; cases g
  simp only [c7Entry, UnusedClassEntry.mk.injEq] at h
  simp [h.1, h.2.1, h.2.2]

/-- C7: a class definition appears in the unused-class output exactly once
iff its name carries neither the abstract nor the test naming convention and
is_class_used is false for it. -/
theorem C7_unused_class_output (st : AnalyzerState) (c : ClassInfo) :
    (find_unused_classes st).count (c7Entry c) =
      if unusedClassQualifies st.class_uses c then st.classes.count c else 0 := by
  by_cases hq : unusedClassQualifies st.class_uses c
  · rw [if_pos hq]
    apply count_filterMap_of_uniq _ _ c
    · exact (unusedClassFor_eq_some _ c _).mpr ⟨hq, rfl⟩
    · intro g hg
      obtain ⟨hgq, he⟩ := (unusedClassFor_eq_some _ g _).mp hg
      exact (c7Entry_inj he).symm
  · rw [if_neg hq]
    apply count_filterMap_zero
    intro g hg
    obtain ⟨hgq, he⟩ := (unusedClassFor_eq_some _ g _).mp hg
    exact hq ((c7Entry_inj he) ▸ hgq)

/-- The finding record that find_unused_variables would build for a variable. -/
def c6Entry (v : VariableInfo) : UnusedVariableEntry :=
  ⟨v.file, v.class_name, v.name, v.is_constant, v.lineno⟩

/-- Transcription of the spec rule for unused variables: module- or
class-level scope (no enclosing function), not a dunder name, and no recorded
name use in the same unit with exactly that name. -/
abbrev unusedVariableQualifies (uses : List VarUse) (v : VariableInfo) : Prop :=
  v.function_name = none ∧
  ¬ (pyStartsWith v.name "__" ∧ pyEndsWith v.name "__") ∧
  ∀ u ∈ uses, ¬ (u.name = v.name ∧ u.file = v.file)

theorem unusedVariableFor_eq_some (uses : List VarUse) (g : VariableInfo)
    (e : UnusedVariableEntry) :
    unusedVariableFor uses g = some e ↔
      unusedVariableQualifies uses g ∧ e = c6Entry g := by
  simp only [unusedVariableFor, unusedVariableQualifies, c6Entry, isVariableUsed]
  split_ifs with h1 h2 h3 <;> simp_all [List.any_eq_true, not_or] <;> aesop

/-- C6: a variable definition is reported by find_unused_variables iff it is
module- or class-level, not dunder-named, and its name is loaded nowhere in
its unit; a function-local variable is never reported, and a qualifying
definition appears in the output exactly once. -/
theorem C6_unused_variable_output (st : AnalyzerState) (v : VariableInfo) :
    (unusedVariableFor st.variable_uses v =
      if unusedVariableQualifies st.variable_uses v then some (c6Entry v) else none) ∧
    (unusedVariableQualifies st.variable_uses v →
      (find_unused_variables st).count (c6Entry v) = st.variableDefs.count v) := by
  constructor
  · by_cases hq : unusedVariableQualifies st.variable_uses v
    · rw [if_pos hq]
      exact (unusedVariableFor_eq_some _ v _).mpr ⟨hq, rfl⟩
    · rw [if_neg hq]
      cases he : unusedVariableFor st.variable_uses v with
      | none => rfl
      | some e =>
          exact absurd ((unusedVariableFor_eq_some _ v _).mp he).1 hq
  · intro hq
    apply count_filterMap_of_uniq _ _ v
    · exact (unusedVariableFor_eq_some _ v _).mpr ⟨hq, rfl⟩
    · intro g hg
      obtain ⟨hgq, he⟩ := (unusedVariableFor_eq_some _ g _).mp hg
      cases v; cases g
      simp only [c6Entry, UnusedVariableEntry.mk.injEq] at he
      obtain ⟨hfn, -⟩ := hq
      obtain ⟨hgn, -⟩ := hgq
      simp_all

/-- Witness for C6 at a concrete module-level constant that is never loaded. -/
theorem C6_unused_variable_output_witness :
    unusedVariableQualifies ([] : List VarUse) ⟨"MAX_RETRIES", "cfg.py", none, none, 1, true⟩ ∧
    (find_unused_variables ⟨[], [], [⟨"MAX_RETRIES", "cfg.py", none, none, 1, true⟩], [], [], []⟩).count
      (c6Entry ⟨"MAX_RETRIES", "cfg.py", none, none, 1, true⟩) = 1 :=
  ⟨by decide,
   (C6_unused_variable_output ⟨[], [], [⟨"MAX_RETRIES", "cfg.py", none, none, 1, true⟩], [], [], []⟩
      ⟨"MAX_RETRIES", "cfg.py", none, none, 1, true⟩).2 (by decide)⟩

/-- C4: a unit whose analysis fails (parse failure on the Python path or an
unreadable file) contributes nothing: the analyzer state is left exactly as it
was, and a run over a unit list behaves as if the failing unit were absent,
the following units still being processed. -/
theorem C4_failed_unit_contributes_nothing (st : AnalyzerState) (fp : String)
    (us1 us2 : List UnitInput) :
    analyzeFile st (UnitInput.pythonUnit fp none) = st ∧
    analyzeFile st (UnitInput.unreadableUnit fp) = st ∧
    analyzeAll st (us1 ++ UnitInput.pythonUnit fp none :: us2) = analyzeAll st (us1 ++ us2) ∧
    analyzeAll st (us1 ++ UnitInput.unreadableUnit fp :: us2) = analyzeAll st (us1 ++ us2) := by
  refine ⟨rfl, rfl, ?_, ?_⟩ <;>
    simp [analyzeAll, List.foldl_append, analyzeFile, analyzeUnitE, analyzePythonFile]

/-- C10: a function whose name begins with an underscore is skipped by
find_private_candidates, and no emitted finding carries its name as the
method. -/
theorem C10_underscore_never_candidate (st : AnalyzerState) (f : FunctionInfo)
    (h : pyStartsWith f.name "_" = true) :
    candidateFor st.calls f = none ∧
    ∀ c ∈ find_private_candidates st, c.method ≠ f.name := by
  constructor
  · simp [candidateFor, h]
  · intro c hc hme
    obtain ⟨g, hg, hcg⟩ := List.mem_filterMap.mp hc
    simp only [candidateFor] at hcg
    split_ifs at hcg with h1 h2 h3
    all_goals
      first
        | exact Option.noConfusion hcg
        | (have hce := Option.some.inj hcg
           subst hce
           exact h1 (by rw [show g.name = f.name from hme]; exact h))

/-- Witness for C10 at a concrete underscore-prefixed method. -/
theorem C10_underscore_never_candidate_witness :
    pyStartsWith "_helper" "_" = true ∧
    candidateFor ([] : List CallInfo) ⟨"_helper", "a.py", some "C", 3⟩ = none ∧
    ∀ c ∈ find_private_candidates ⟨[⟨"_helper", "a.py", some "C", 3⟩], [], [], [], [], []⟩,
      c.method ≠ "_helper" :=
  ⟨by decide,
   (C10_underscore_never_candidate ⟨[⟨"_helper", "a.py", some "C", 3⟩], [], [], [], [], []⟩
      ⟨"_helper", "a.py", some "C", 3⟩ (by decide)).1,
   (C10_underscore_never_candidate ⟨[⟨"_helper", "a.py", some "C", 3⟩], [], [], [], [], []⟩
      ⟨"_helper", "a.py", some "C", 3⟩ (by decide)).2⟩

theorem candidateFor_none_of_no_class (calls : List CallInfo) (f : FunctionInfo)
    (h : f.class_name = none) : candidateFor calls f = none := by
  simp only [candidateFor, h]
  split_ifs with h1 h2 h3
  · rfl
  · simp [pyTruthyOpt] at h3
  · rfl
  · rfl

/-- C9: every function record of the text-based path carries class_name None,
every call record of the text-based path carries class_name, caller_class and
caller_function None, the analyzer state is extended by exactly these records,
and a record without a class can never be turned into a narrowing candidate. -/
theorem C9_text_based_scopeless (fp content : String)
    (fm cm : List RegexMatch) :
    (∀ f ∈ textBasedFunctions fp content fm,
        f.class_name = none ∧ ∀ calls : List CallInfo, candidateFor calls f = none) ∧
    (∀ c ∈ textBasedCalls fp cm,
        c.class_name = none ∧ c.caller_class = none ∧ c.caller_function = none) ∧
    (∀ st : AnalyzerState,
        (analyzeTextBased st fp content fm cm).functions =
          st.functions ++ textBasedFunctions fp content fm ∧
        (analyzeTextBased st fp content fm cm).calls =
          st.calls ++ textBasedCalls fp cm) := by
  refine ⟨?_, ?_, fun st => ⟨rfl, rfl⟩⟩
  · intro f hf
    obtain ⟨m, hm, hmf⟩ := List.mem_filterMap.mp hf
    have hcn : f.class_name = none := by
      cases hg : m.group1 with
      | none => rw [hg] at hmf; cases hmf
      | some n =>
          rw [hg] at hmf
          by_cases ht : pyTruthyS n = true
          · simp only [ht, if_true] at hmf
            rw [← Option.some.inj hmf]
          · simp only [ht] at hmf
            simp at hmf
    exact ⟨hcn, fun calls => candidateFor_none_of_no_class calls f hcn⟩
  · intro c hc
    obtain ⟨m, hm, hmc⟩ := List.mem_filterMap.mp hc
    cases hg : m.group1 with
    | none => rw [hg] at hmc; cases hmc
    | some n =>
        rw [hg] at hmc
        by_cases ht : pyTruthyS n = true
        · simp only [ht, if_true] at hmc
          rw [← Option.some.inj hmc]
          exact ⟨rfl, rfl, rfl⟩
        · simp only [ht] at hmc
          simp at hmc

/-- Witness for C9 at one concrete match of a text-based scan. -/
theorem C9_text_based_scopeless_witness :
    ((⟨"main", "app.dart", none, 1⟩ : FunctionInfo) ∈
        textBasedFunctions "app.dart" "void main() " [⟨some "main", 0⟩]) ∧
    (⟨"main", "app.dart", none, 1⟩ : FunctionInfo).class_name = none ∧
    candidateFor ([] : List CallInfo) ⟨"main", "app.dart", none, 1⟩ = none :=
  ⟨by decide,
   ((C9_text_based_scopeless "app.dart" "void main() " [⟨some "main", 0⟩] []).1
      ⟨"main", "app.dart", none, 1⟩ (by decide)).1,
   ((C9_text_based_scopeless "app.dart" "void main() " [⟨some "main", 0⟩] []).1
      ⟨"main", "app.dart", none, 1⟩ (by decide)).2 []⟩

/-- A unit that imports the name helper and also binds a module-level
variable of that name, with no other use of the name. -/
def scenarioImportStmts : List PyStmt :=
  [PyStmt.importS ["helper"],
   PyStmt.assign 2 [PyExpr.nameE "helper" ExprCtx.store] PyExpr.constantE]

/-- Analyzer state after analyzing the import scenario unit. -/
def scenarioImportState : AnalyzerState :=
  analyzeFile initState (UnitInput.pythonUnit "m.py" (some scenarioImportStmts))

/-- Counterexample to C2: the imported name helper lands in the global
used-names set but yields no name-load record, so the unused-variable check
still reports the module-level binding of that very name. -/
theorem C2_import_counterexample :
    scenarioImportState.class_uses = ["helper"] ∧
    scenarioImportState.variable_uses = [] ∧
    scenarioImportState.variableDefs = [⟨"helper", "m.py", none, none, 2, false⟩] ∧
    find_unused_variables scenarioImportState = [⟨"m.py", none, "helper", false, 2⟩] := by
  refine ⟨?_, ?_, ?_, ?_⟩ <;>
    simp [scenarioImportState, scenarioImportStmts, analyzeFile, analyzeUnitE,
      analyzePythonFile, initState, initFV, initCV, fvStmts, fvStmt, fvAssignTargets,
      cvStmts, cvStmt, cvExpr, cvExprs, cvCallRecord, pyIsUpper,
      find_unused_variables, unusedVariableFor, isVariableUsed, pyStartsWith,
      pyEndsWith, List.isPrefixOf, List.isSuffixOf]

/-- C2 as amended: visiting an import-like construct adds every imported name
to the global used-names set and records no name-load Reference and no call
Reference. -/
theorem C2_amended_import_effect (st : CVState) (names : List String) (n : String)
    (hn : n ∈ names) :
    (cvStmt st (PyStmt.importS names)).class_uses = st.class_uses ++ names ∧
    n ∈ (cvStmt st (PyStmt.importS names)).class_uses ∧
    (cvStmt st (PyStmt.importS names)).variable_uses = st.variable_uses ∧
    (cvStmt st (PyStmt.importS names)).calls = st.calls ∧
    (cvStmt st (PyStmt.importFromS names)).class_uses = st.class_uses ++ names ∧
    n ∈ (cvStmt st (PyStmt.importFromS names)).class_uses ∧
    (cvStmt st (PyStmt.importFromS names)).variable_uses = st.variable_uses ∧
    (cvStmt st (PyStmt.importFromS names)).calls = st.calls := by
  simp [cvStmt, hn]

/-- Witness for the amended C2 at a concrete import of one name. -/
theorem C2_amended_import_effect_witness :
    ("os" : String) ∈ ["os"] ∧
    ((cvStmt (initCV "m.py") (PyStmt.importS ["os"])).class_uses =
        (initCV "m.py").class_uses ++ ["os"] ∧
      ("os" : String) ∈ (cvStmt (initCV "m.py") (PyStmt.importS ["os"])).class_uses ∧
      (cvStmt (initCV "m.py") (PyStmt.importS ["os"])).variable_uses =
        (initCV "m.py").variable_uses ∧
      (cvStmt (initCV "m.py") (PyStmt.importS ["os"])).calls = (initCV "m.py").calls ∧
      (cvStmt (initCV "m.py") (PyStmt.importFromS ["os"])).class_uses =
        (initCV "m.py").class_uses ++ ["os"] ∧
      ("os" : String) ∈ (cvStmt (initCV "m.py") (PyStmt.importFromS ["os"])).class_uses ∧
      (cvStmt (initCV "m.py") (PyStmt.importFromS ["os"])).variable_uses =
        (initCV "m.py").variable_uses ∧
      (cvStmt (initCV "m.py") (PyStmt.importFromS ["os"])).calls = (initCV "m.py").calls) :=
  ⟨by decide, C2_amended_import_effect (initCV "m.py") ["os"] "os" (by decide)⟩

/-- Scenario A of the spec: class User with method deactivate calling
self._log_status_change once, and the method _log_status_change defined in
the same class; no other caller exists. -/
def scenarioAStmts : List PyStmt :=
  [PyStmt.classDef "User" 1 [
    PyStmt.functionDef "deactivate" 2 [
      PyStmt.exprS (PyExpr.callE
        (PyExpr.attributeE (PyExpr.nameE "self" ExprCtx.load) "_log_status_change" ExprCtx.load)
        [PyExpr.constantE])],
    PyStmt.functionDef "_log_status_change" 4 [PyStmt.passS]]]

/-- Analyzer state after analyzing the Scenario A unit. -/
def scenarioAState : AnalyzerState :=
  analyzeFile initState (UnitInput.pythonUnit "user.py" (some scenarioAStmts))

/-- Evaluation of the code at the failing input of C1: the method
_log_status_change has a non-null enclosing class, call count one, and its
sole caller (user.py, User, deactivate) lies in the defining unit, yet
find_private_candidates emits no finding at all, because the loop skips every
name that starts with an underscore. -/
theorem C1_scenarioA_divergence :
    (⟨"_log_status_change", "user.py", some "User", 4⟩ : FunctionInfo) ∈
      scenarioAState.functions ∧
    get_call_count scenarioAState.calls ("user.py", "_log_status_change", some "User") = 1 ∧
    callersOf scenarioAState.calls ("user.py", "_log_status_change", some "User") =
      [⟨"user.py", some "User", some "deactivate"⟩] ∧
    find_private_candidates scenarioAState = [] := by
  refine ⟨?_, ?_, ?_, ?_⟩ <;>
    simp [scenarioAState, scenarioAStmts, analyzeFile, analyzeUnitE, analyzePythonFile,
      initState, initFV, initCV, fvStmts, fvStmt, cvStmts, cvStmt, cvExpr, cvExprs,
      cvCallRecord, pyTruthyS, pyTruthyOpt, get_call_count, callersOf, funcIdOf,
      funcIdOfCall, find_private_candidates, candidateFor, pyStartsWith,
      List.isPrefixOf, List.dedup]

/-- The two callee shapes that visit_Call records: a bare name and an
attribute access whose receiver is itself a name. -/
def simpleCallee : PyExpr → Bool
  | PyExpr.nameE _ _ => true
  | PyExpr.attributeE (PyExpr.nameE _ _) _ _ => true
  | _ => false

theorem calls_cons_of_prefix {st1 : CVState} {base : List CallInfo} {r : CallInfo}
    (l : List PyExpr) (h : st1.calls = base ++ [r]) :
    ∃ rest, (cvExprs st1 l).calls = base ++ r :: rest := by
  obtain ⟨t, ht⟩ := (cvExprs_inv st1 l).2.2.2.1
  refine ⟨t, ?_⟩
  rw [← ht, h]
  simp

/-- C5: classification of a visited call expression by callee shape.  A bare
name call records a call with no class hint; a self-receiver attribute call
records a call hinted at the current enclosing class and leaves class_uses
unchanged (checked with no further subexpressions); any other simple-name
receiver records a call hinted at the receiver verbatim and adds the receiver
to class_uses; any other callee shape records nothing, the node reducing to
the plain traversal of its children. -/
theorem C5_call_classification (st : CVState) (id recv attr : String)
    (c1 c2 : ExprCtx) (args : List PyExpr) (f : PyExpr)
    (hid : id ≠ "") (hattr : attr ≠ "") (hrecv : recv ≠ "self")
    (hf : simpleCallee f = false) :
    (∃ rest, (cvExpr st (PyExpr.callE (PyExpr.nameE id c1) args)).calls =
        st.calls ++ ⟨id, st.filename, none, st.filename,
          st.current_class, st.current_function⟩ :: rest) ∧
    (∃ rest, (cvExpr st (PyExpr.callE
          (PyExpr.attributeE (PyExpr.nameE "self" c1) attr c2) args)).calls =
        st.calls ++ ⟨attr, st.filename, st.current_class, st.filename,
          st.current_class, st.current_function⟩ :: rest) ∧
    ((cvExpr st (PyExpr.callE
        (PyExpr.attributeE (PyExpr.nameE "self" c1) attr c2) [])).class_uses =
      st.class_uses) ∧
    (∃ rest, (cvExpr st (PyExpr.callE
          (PyExpr.attributeE (PyExpr.nameE recv c1) attr c2) args)).calls =
        st.calls ++ ⟨attr, st.filename, some recv, st.filename,
          st.current_class, st.current_function⟩ :: rest) ∧
    (recv ∈ (cvExpr st (PyExpr.callE
        (PyExpr.attributeE (PyExpr.nameE recv c1) attr c2) args)).class_uses) ∧
    ((cvExpr st (PyExpr.callE f args)) = cvExprs st (f :: args)) := by
  refine ⟨?_, ?_, ?_, ?_, ?_, ?_⟩
  · simp only [cvExpr]
    apply calls_cons_of_prefix
    simp [cvCallRecord, pyTruthyS, hid]
  · simp only [cvExpr]
    apply calls_cons_of_prefix
    simp [cvCallRecord, pyTruthyS, hattr]
  · cases c1 <;>
      simp [cvExpr, cvExprs, cvCallRecord, pyTruthyS, hattr]
  · simp only [cvExpr]
    apply calls_cons_of_prefix
    simp [cvCallRecord, pyTruthyS, hattr, hrecv]
  · have hmem : recv ∈ (cvCallRecord st (PyExpr.callE
        (PyExpr.attributeE (PyExpr.nameE recv c1) attr c2) args)).class_uses := by
      simp [cvCallRecord, pyTruthyS, hattr, hrecv]
    have hpre := (cvExprs_inv (cvCallRecord st (PyExpr.callE
        (PyExpr.attributeE (PyExpr.nameE recv c1) attr c2) args))
        (PyExpr.attributeE (PyExpr.nameE recv c1) attr c2 :: args)).2.2.2.2.2
    simp only [cvExpr]
    exact hpre.subset hmem
  · cases f with
    | nameE i c => simp [simpleCallee] at hf
    | attributeE v a c =>
        cases v with
        | nameE r rc => simp [simpleCallee] at hf
        | attributeE w b cb => simp [cvExpr, cvCallRecord]
        | callE g gs => simp [cvExpr, cvCallRecord]
        | constantE => simp [cvExpr, cvCallRecord]
        | tupleE es ce => simp [cvExpr, cvCallRecord]
    | callE g gs => simp [cvExpr, cvCallRecord]
    | constantE => simp [cvExpr, cvCallRecord]
    | tupleE es ce => simp [cvExpr, cvCallRecord]

/-- Witness for C5 at concrete names, empty arguments and a constant callee. -/
theorem C5_call_classification_witness :
    ("f" : String) ≠ "" ∧ ("m" : String) ≠ "" ∧ ("obj" : String) ≠ "self" ∧
    simpleCallee PyExpr.constantE = false ∧
    ((∃ rest, (cvExpr (initCV "a.py")
          (PyExpr.callE (PyExpr.nameE "f" ExprCtx.load) [])).calls =
        (initCV "a.py").calls ++ ⟨"f", (initCV "a.py").filename, none,
          (initCV "a.py").filename, (initCV "a.py").current_class,
          (initCV "a.py").current_function⟩ :: rest) ∧
      (∃ rest, (cvExpr (initCV "a.py") (PyExpr.callE
            (PyExpr.attributeE (PyExpr.nameE "self" ExprCtx.load) "m" ExprCtx.load) [])).calls =
        (initCV "a.py").calls ++ ⟨"m", (initCV "a.py").filename,
          (initCV "a.py").current_class, (initCV "a.py").filename,
          (initCV "a.py").current_class, (initCV "a.py").current_function⟩ :: rest) ∧
      ((cvExpr (initCV "a.py") (PyExpr.callE
          (PyExpr.attributeE (PyExpr.nameE "self" ExprCtx.load) "m" ExprCtx.load) [])).class_uses =
        (initCV "a.py").class_uses) ∧
      (∃ rest, (cvExpr (initCV "a.py") (PyExpr.callE
            (PyExpr.attributeE (PyExpr.nameE "obj" ExprCtx.load) "m" ExprCtx.load) [])).calls =
        (initCV "a.py").calls ++ ⟨"m", (initCV "a.py").filename, some "obj",
          (initCV "a.py").filename, (initCV "a.py").current_class,
          (initCV "a.py").current_function⟩ :: rest) ∧
      (("obj" : String) ∈ (cvExpr (initCV "a.py") (PyExpr.callE
          (PyExpr.attributeE (PyExpr.nameE "obj" ExprCtx.load) "m" ExprCtx.load) [])).class_uses) ∧
      ((cvExpr (initCV "a.py") (PyExpr.callE PyExpr.constantE [])) =
        cvExprs (initCV "a.py") [PyExpr.constantE])) :=
  ⟨by decide, by decide, by decide, rfl,
   C5_call_classification (initCV "a.py") "f" "obj" "m" ExprCtx.load ExprCtx.load []
     PyExpr.constantE (by decide) (by decide) (by decide) rfl⟩

/-- C8: the scope stack of both visitors is restored on exit from every
construct: visiting any statement, statement list or expression leaves
current_class and current_function exactly as they were, so the scope in
effect when a sibling construct is visited equals the scope in effect when
the previous sibling was entered, and each record is built from the scope
fields as they stand at its node. -/
theorem C8_scope_stack_discipline :
    (∀ (st : FVState) (s : PyStmt),
        (fvStmt st s).current_class = st.current_class ∧
        (fvStmt st s).current_function = st.current_function) ∧
    (∀ (st : FVState) (l : List PyStmt),
        (fvStmts st l).current_class = st.current_class ∧
        (fvStmts st l).current_function = st.current_function) ∧
    (∀ (st : FVState) (s : PyStmt) (rest : List PyStmt),
        fvStmts st (s :: rest) = fvStmts (fvStmt st s) rest) ∧
    (∀ (st : CVState) (s : PyStmt),
        (cvStmt st s).current_class = st.current_class ∧
        (cvStmt st s).current_function = st.current_function) ∧
    (∀ (st : CVState) (l : List PyStmt),
        (cvStmts st l).current_class = st.current_class ∧
        (cvStmts st l).current_function = st.current_function) ∧
    (∀ (st : CVState) (s : PyStmt) (rest : List PyStmt),
        cvStmts st (s :: rest) = cvStmts (cvStmt st s) rest) ∧
    (∀ (st : CVState) (e : PyExpr),
        (cvExpr st e).current_class = st.current_class ∧
        (cvExpr st e).current_function = st.current_function) :=
  ⟨fun st s => ⟨(fvStmt_scope st s).1, (fvStmt_scope st s).2.1⟩,
   fun st l => ⟨(fvStmts_scope st l).1, (fvStmts_scope st l).2.1⟩,
   fun _ _ _ => rfl,
   fun st s => ⟨(cvStmt_inv st s).2.1, (cvStmt_inv st s).2.2.1⟩,
   fun st l => ⟨(cvStmts_inv st l).2.1, (cvStmts_inv st l).2.2.1⟩,
   fun _ _ _ => rfl,
   fun st e => ⟨(cvExpr_inv st e).2.1, (cvExpr_inv st e).2.2.1⟩⟩

/-- Control variant of Scenario A with the same structure but a method name
that does not start with an underscore. -/
def scenarioAControlStmts : List PyStmt :=
  [PyStmt.classDef "User" 1 [
    PyStmt.functionDef "deactivate" 2 [
      PyStmt.exprS (PyExpr.callE
        (PyExpr.attributeE (PyExpr.nameE "self" ExprCtx.load) "log_status_change" ExprCtx.load)
        [PyExpr.constantE])],
    PyStmt.functionDef "log_status_change" 4 [PyStmt.passS]]]

/-- Analyzer state after analyzing the control unit. -/
def scenarioAControlState : AnalyzerState :=
  analyzeFile initState (UnitInput.pythonUnit "user.py" (some scenarioAControlStmts))

/-- Control for the Scenario A divergence: with the underscore removed from
the method name and everything else identical, find_private_candidates emits
exactly the expected single finding with the single caller
(user.py, User, deactivate), so the underscore skip is the sole reason the
Scenario A method is missing. -/
theorem scenarioA_control_emits_finding :
    find_private_candidates scenarioAControlState =
      [⟨"user.py", some "User", "log_status_change", 4,
        [⟨"user.py", some "User", some "deactivate"⟩]⟩] := by
  simp [scenarioAControlState, scenarioAControlStmts, analyzeFile, analyzeUnitE,
    analyzePythonFile, initState, initFV, initCV, fvStmts, fvStmt, cvStmts, cvStmt,
    cvExpr, cvExprs, cvCallRecord, pyTruthyS, pyTruthyOpt, get_call_count, callersOf,
    funcIdOf, funcIdOfCall, find_private_candidates, candidateFor, pyStartsWith,
    List.isPrefixOf, List.dedup]
